import Mathlib

/-!
Verification development for the service-call analytics core of the
Real-time-Service-Analytics-dashboard repository.

The definitions below are a shallow embedding of the KPI and filter-query
layer found in backend/utils/query_tools.py, backend/utils/query_builder.py
and backend/api/routes/calls.py.  Timestamps are embedded as integer epoch
seconds; pandas Series of floats are embedded as lists of rationals, and the
Python round builtin is embedded as exact banker rounding over rationals.
-/

/-- Models the Python str.lower method (ASCII case folding, as used on the
status vocabulary of this code base): every character is lowercased. -/
def py_lower (s : String) : String := ⟨s.data.map Char.toLower⟩

/-- Models the Python str.startswith method: the second string is a leading
segment of the first. -/
def py_startswith (s p : String) : Bool := p.data.isPrefixOf s.data

/-- Models the Python str.strip method with no arguments: leading and
trailing whitespace is removed. -/
def py_strip (s : String) : String :=
  ⟨((s.data.dropWhile Char.isWhitespace).reverse.dropWhile Char.isWhitespace).reverse⟩

/-- Rounds a rational to the nearest integer, ties to even, which is the
rounding mode of the Python round builtin. -/
def round_half_even (q : ℚ) : ℤ :=
  if q - ⌊q⌋ < 1 / 2 then ⌊q⌋
  else if (1 : ℚ) / 2 < q - ⌊q⌋ then ⌊q⌋ + 1
  else if ⌊q⌋ % 2 = 0 then ⌊q⌋ else ⌊q⌋ + 1

/-- Models the two-argument Python round builtin over exact rationals. -/
def python_round (q : ℚ) (digits : ℕ) : ℚ :=
  (round_half_even (q * 10 ^ digits) : ℚ) / 10 ^ digits

/-- One row of the service_calls data set, restricted to the fields the KPI
engine of backend/utils/query_tools.py reads.  Absent values (SQL NULL and
pandas NaN/NaT) are embedded as none; timestamps as epoch seconds. -/
structure CallRecord where
  status : Option String := none
  call_status : Option String := none
  call_entry_datetime : Option Int := none
  call_solved_datetime : Option Int := none
  customer_name : Option String := none
  customer_complaint : Option String := none
  state : Option String := none
  model : Option String := none
deriving DecidableEq

/-- The closed-status vocabulary of compute_kpis in query_tools.py. -/
def closed_status_targets : List String := ["solved", "closed", "completed", "resolved"]

/-- The pending-status vocabulary of compute_kpis in query_tools.py. -/
def pending_status_targets : List String :=
  ["pending", "processing", "unsolved", "open", "in progress"]

/-- Embedding of the private status-matching helper of query_tools.py: the
status field, NaN filled with the empty string and lowercased, is an exact
member of the lowered target set, or the call_status field, likewise filled
and lowercased, starts with some member of the lowered target set. -/
def status_matches (targets : List String) (r : CallRecord) : Bool :=
  let targetsLower := targets.map py_lower
  let statusMatch := targetsLower.contains (py_lower ((r.status).getD ""))
  let callStatusMatch :=
    targetsLower.any (fun t => py_startswith (py_lower ((r.call_status).getD "")) t)
  statusMatch || callStatusMatch

/-- Resolution time of one record in days, when both endpoints are present:
the seconds between the two timestamps divided by 86400, as in the private
resolution-days helper of query_tools.py. -/
def resolution_of (r : CallRecord) : Option ℚ :=
  match r.call_entry_datetime, r.call_solved_datetime with
  | some entry, some solved => some (((solved - entry : ℤ) : ℚ) / 86400)
  | _, _ => none

/-- Embedding of the private resolution-days helper of query_tools.py: the
rows with both timestamps kept, each mapped to its timestamp difference in
days. -/
def resolution_days_list (df : List CallRecord) : List ℚ := df.filterMap resolution_of

/-- One eligible occurrence for repeat detection: a record whose customer
name, complaint and entry timestamp are all present. -/
structure Occ where
  name : String
  complaint : String
  time : Int
deriving DecidableEq

/-- Grouping key of an occurrence: the customer and complaint pair. -/
def Occ.key (o : Occ) : String × String := (o.name, o.complaint)

/-- The rows of the frame that survive the dropna over customer_name,
customer_complaint and call_entry_datetime in the repeat counter. -/
def eligible_occurrences (df : List CallRecord) : List Occ :=
  df.filterMap fun r =>
    match r.customer_name, r.customer_complaint, r.call_entry_datetime with
    | some n, some c, some t => some ⟨n, c, t⟩
    | _, _, _ => none

/-- The sort order of the repeat counter: sort_values by customer name, then
complaint, then entry timestamp, each ascending. -/
def OccSortLe (a b : Occ) : Prop :=
  a.name < b.name ∨
    (a.name = b.name ∧
      (a.complaint < b.complaint ∨ (a.complaint = b.complaint ∧ a.time ≤ b.time)))

/-- A kernel-computable decision of the string order, through the character
list; used so that concrete sorts evaluate inside proofs. -/
def strLtDec (a b : String) : Decidable (a < b) :=
  decidable_of_iff (a.toList < b.toList) String.lt_iff_toList_lt.symm

/-- A kernel-computable decision of the non-strict string order. -/
def strLeDec (a b : String) : Decidable (a ≤ b) :=
  decidable_of_iff (a.toList ≤ b.toList) String.le_iff_toList_le.symm

instance : DecidableRel OccSortLe := fun a b => by
  haveI d1 : Decidable (a.name < b.name) := strLtDec _ _
  haveI d2 : Decidable (a.complaint < b.complaint) := strLtDec _ _
  unfold OccSortLe
  infer_instance

/-- Chronological order on occurrences, used to state the specification form
of repeat detection. -/
def OccTimeLe (a b : Occ) : Prop := a.time ≤ b.time

instance : DecidableRel OccTimeLe := fun a b => by unfold OccTimeLe; infer_instance

/-- The 30-day window test of the repeat counter: the timestamp difference
of two occurrences, in days, is at most 30 (inclusive). -/
def within_window (a b : Occ) : Bool :=
  decide ((((b.time - a.time : ℤ) : ℚ) / 86400) ≤ 30)

/-- The per-group flag count of the repeat counter: successive differences
within one chronologically ordered group, a flag for each difference of at
most 30 days; the first row of the group carries no difference. -/
def group_diff_count : List Occ → ℕ
  | a :: b :: rest => (if within_window a b then 1 else 0) + group_diff_count (b :: rest)
  | _ => 0

/-- The distinct grouping keys of a list of occurrences. -/
def occ_keys (l : List Occ) : List (String × String) := (l.map Occ.key).dedup

/-- Embedding of the private repeated-issue counter of query_tools.py: the
eligible rows are sorted by name, complaint and entry time, grouped by the
name and complaint pair, and the flags of all groups are summed. -/
def repeated_issue_count (df : List CallRecord) : ℕ :=
  ((occ_keys (List.insertionSort OccSortLe (eligible_occurrences df))).map
    (fun k =>
      group_diff_count
        ((List.insertionSort OccSortLe (eligible_occurrences df)).filter
          (fun o => decide (o.key = k))))).sum

/-- The dictionary returned by compute_kpis in query_tools.py. -/
structure KPIResult where
  total_calls : ℕ
  closed_calls : ℕ
  pending_calls : ℕ
  avg_resolution_days : ℚ
  sla_compliance : ℚ
  repeated_issues : ℕ
deriving DecidableEq

/-- Embedding of compute_kpis in query_tools.py. -/
def compute_kpis (df : List CallRecord) : KPIResult :=
  if df.length = 0 then ⟨0, 0, 0, 0, 0, 0⟩
  else
    let resolutionDays := resolution_days_list df
    { total_calls := df.length
      closed_calls := df.countP (status_matches closed_status_targets)
      pending_calls := df.countP (status_matches pending_status_targets)
      avg_resolution_days :=
        if resolutionDays.isEmpty then 0
        else python_round (resolutionDays.sum / resolutionDays.length) 2
      sla_compliance :=
        if resolutionDays.length = 0 then 0
        else
          python_round
            (((resolutionDays.countP (fun q => decide (q ≤ 2))) : ℚ) /
              resolutionDays.length * 100) 1
      repeated_issues := repeated_issue_count df }

/-- Distinct elements of a list in order of first occurrence, as produced by
the pandas value-counting hash table. -/
def unique_aux (seen : List String) : List String → List String
  | [] => []
  | a :: t => if seen.contains a then unique_aux seen t else a :: unique_aux (a :: seen) t

/-- Distinct elements of a list, keeping the first occurrence of each. -/
def unique_in_order (l : List String) : List String := unique_aux [] l

/-- Comparator for sorting value counts in descending count order. -/
def CountDescLe (a b : String × ℕ) : Prop := b.2 ≤ a.2

instance : DecidableRel CountDescLe := fun a b => by unfold CountDescLe; infer_instance

/-- Models the pandas Series.value_counts method: the distinct values in
first-occurrence order, each with its frequency, stably sorted by frequency
in descending order. -/
def value_counts (l : List String) : List (String × ℕ) :=
  List.insertionSort CountDescLe ((unique_in_order l).map (fun v => (v, l.count v)))

/-- Models the pandas DataFrame.head method: the first n rows when n is not
negative, otherwise all rows but the last. -/
def pandas_head {α : Type} (n : Int) (l : List α) : List α :=
  if 0 ≤ n then l.take n.toNat else l.take (l.length - (-n).toNat)

/-- Embedding of prepare_distribution in query_tools.py: the column is
taken, absent entries dropped, entries stripped, blank entries dropped,
values counted, and the result truncated only when the limit is truthy. -/
def prepare_distribution (df : List CallRecord) (column : CallRecord → Option String)
    (limit : Option Int) : List (String × ℕ) :=
  let series := (df.filterMap column).map py_strip
  let cleaned := series.filter (fun s => !(s == ""))
  let data := value_counts cleaned
  match limit with
  | some n => if n = 0 then data else pandas_head n data
  | none => data

/-- The closed-call criterion exactly as claim C1 words it: the status field,
case-insensitively, is an exact member of the closed set, or the call_status
field, case-insensitively, starts with the word solved. -/
def claim_closed (r : CallRecord) : Bool :=
  (match r.status with
   | some s => closed_status_targets.contains (py_lower s)
   | none => false) ||
  (match r.call_status with
   | some c => py_startswith (py_lower c) "solved"
   | none => false)

/-- Count of records satisfying the C1 claim criterion. -/
def claim_closed_count (df : List CallRecord) : ℕ := df.countP claim_closed

/-- The closed-call criterion as the code actually behaves: the status field,
case-insensitively, is an exact member of the closed set, or the call_status
field, case-insensitively, starts with some member of the closed set. -/
def spec_closed (r : CallRecord) : Bool :=
  (match r.status with
   | some s => closed_status_targets.contains (py_lower s)
   | none => false) ||
  (match r.call_status with
   | some c => closed_status_targets.any (fun t => py_startswith (py_lower c) t)
   | none => false)

/-- The pending-call criterion exactly as claim C2 words it: the status field
alone, case-insensitively, is an exact member of the pending set. -/
def claim_pending (r : CallRecord) : Bool :=
  match r.status with
  | some s => pending_status_targets.contains (py_lower s)
  | none => false

/-- Count of records satisfying the C2 claim criterion. -/
def claim_pending_count (df : List CallRecord) : ℕ := df.countP claim_pending

/-- The pending-call criterion as the code actually behaves: the status field,
case-insensitively, is an exact member of the pending set, or the call_status
field, case-insensitively, starts with some member of the pending set. -/
def spec_pending (r : CallRecord) : Bool :=
  (match r.status with
   | some s => pending_status_targets.contains (py_lower s)
   | none => false) ||
  (match r.call_status with
   | some c => pending_status_targets.any (fun t => py_startswith (py_lower c) t)
   | none => false)

/-- Specification form of the repeat counter, following the claim wording:
for each customer and complaint pair, the eligible occurrences of that pair
are ordered chronologically, and every occurrence that is not the first of
its pair and lies within 30 days (inclusive) of its immediate predecessor is
counted. -/
def spec_repeated_issues (df : List CallRecord) : ℕ :=
  ((occ_keys (eligible_occurrences df)).map
    (fun k =>
      group_diff_count
        (List.insertionSort OccTimeLe
          ((eligible_occurrences df).filter (fun o => decide (o.key = k)))))).sum

/-- Specification form of the SLA figure, following the claim wording: the
percentage, rounded to one decimal place, of the records having both
timestamps whose resolution is at most 2 days, and 0 when no record has
both timestamps. -/
def spec_sla (df : List CallRecord) : ℚ :=
  let eligible := df.countP (fun r => (resolution_of r).isSome)
  let compliant := df.countP (fun r =>
    match resolution_of r with
    | some q => decide (q ≤ 2)
    | none => false)
  if eligible = 0 then 0 else python_round ((compliant : ℚ) / eligible * 100) 1

/-- Specification form of the distribution, following the claim wording: the
records are grouped by their non-absent trimmed value, each group carries the
count of records bearing its value, groups are stably sorted by descending
count, and the result is optionally truncated to a requested top count. -/
def spec_distribution (df : List CallRecord) (column : CallRecord → Option String)
    (top : Option ℕ) : List (String × ℕ) :=
  let vals := df.filterMap
    (fun r => (column r).bind (fun s => if py_strip s = "" then none else some (py_strip s)))
  let groups := (unique_in_order vals).map
    (fun v => (v, df.countP (fun r => (column r).map py_strip == some v)))
  let sorted := List.insertionSort CountDescLe groups
  match top with
  | some n => sorted.take n
  | none => sorted

/-- The ordering claim C7 asserts for distributions: descending count with
ties broken by ascending value. -/
def ClaimDistLe (a b : String × ℕ) : Prop := b.2 < a.2 ∨ (a.2 = b.2 ∧ a.1 ≤ b.1)

instance : DecidableRel ClaimDistLe := fun a b => by
  haveI d1 : Decidable (a.1 ≤ b.1) := strLeDec _ _
  unfold ClaimDistLe
  infer_instance

/-- The distribution as claim C7 words it: groups sorted by descending count
with ties broken by ascending lexical value. -/
def claim_distribution (df : List CallRecord) (column : CallRecord → Option String) :
    List (String × ℕ) :=
  let vals := df.filterMap
    (fun r => (column r).bind (fun s => if py_strip s = "" then none else some (py_strip s)))
  List.insertionSort ClaimDistLe
    ((unique_in_order vals).map (fun v => (v, df.countP (fun r => (column r).map py_strip == some v))))

/-- One filter value of fetch_filtered_calls: a single scalar or a collection
of possibly absent entries. -/
inductive FilterValue
  | scalar (s : String)
  | multi (vs : List (Option String))
deriving DecidableEq

/-- Python truthiness of a filter value, as tested by the filter loop of
fetch_filtered_calls: the empty string and the empty collection are falsy. -/
def truthy_value : FilterValue → Bool
  | .scalar s => !(s == "")
  | .multi vs => !vs.isEmpty

/-- The cleaning step of the condition helper in query_tools.py: absent
entries and empty strings are removed from a collection of values. -/
def clean_values (vs : List (Option String)) : List String :=
  vs.filterMap fun v =>
    match v with
    | none => none
    | some s => if s = "" then none else some s

/-- One SQL condition produced by the two query builders, carrying the bound
values it contributes. -/
inductive SqlCond
  | dateGe (d : String)
  | dateLe (d : String)
  | eqCol (col : String) (v : String)
  | inCol (col : String) (vs : List String)
deriving DecidableEq

/-- Joins strings with a separator, as the Python str.join method does. -/
def join_sep (sep : String) : List String → String
  | [] => ""
  | [a] => a
  | a :: b :: rest => a ++ sep ++ join_sep sep (b :: rest)

/-- The statement-text fragment of a condition, exactly as the Python code
appends it; values never appear, only question-mark placeholders. -/
def SqlCond.render : SqlCond → String
  | .dateGe _ => "date(call_entry_datetime) >= ?"
  | .dateLe _ => "date(call_entry_datetime) <= ?"
  | .eqCol col _ => col ++ " = ?"
  | .inCol col vs => col ++ " IN (" ++ join_sep ", " (List.replicate vs.length "?") ++ ")"

/-- The bound values a condition appends to the parameter list. -/
def SqlCond.values : SqlCond → List String
  | .dateGe d => [d]
  | .dateLe d => [d]
  | .eqCol _ v => [v]
  | .inCol _ vs => vs

/-- The shape of a condition: which criterion it is and how many set members
it carries, with every user-supplied value forgotten. -/
inductive CondShape
  | dateGe
  | dateLe
  | eqCol (col : String)
  | inCol (col : String) (n : ℕ)
deriving DecidableEq

/-- Forgets the values of a condition, keeping its shape. -/
def SqlCond.shape : SqlCond → CondShape
  | .dateGe _ => .dateGe
  | .dateLe _ => .dateLe
  | .eqCol col _ => .eqCol col
  | .inCol col vs => .inCol col vs.length

/-- The statement-text fragment determined by a shape alone. -/
def CondShape.render : CondShape → String
  | .dateGe => "date(call_entry_datetime) >= ?"
  | .dateLe => "date(call_entry_datetime) <= ?"
  | .eqCol col => col ++ " = ?"
  | .inCol col n => col ++ " IN (" ++ join_sep ", " (List.replicate n "?") ++ ")"

/-- The filter dictionary accepted by fetch_filtered_calls, one optional
criterion per filterable key. -/
structure FilterSpec where
  start_date : Option String := none
  end_date : Option String := none
  state : Option FilterValue := none
  model : Option FilterValue := none
  assigned_to : Option FilterValue := none
  engineer : Option FilterValue := none
  issue_category : Option FilterValue := none
  instrument_status : Option FilterValue := none
  status : Option FilterValue := none
deriving DecidableEq

/-- Embedding of the private condition helper of query_tools.py: a scalar
appends an equality condition; a collection is cleaned and, when anything
remains, appends a membership condition, otherwise appends nothing. -/
def append_condition (col : String) : FilterValue → List SqlCond
  | .scalar s => [.eqCol col s]
  | .multi vs =>
      let values := clean_values vs
      if values.isEmpty then [] else [.inCol col values]

/-- One iteration of the filter loop of fetch_filtered_calls: a missing or
falsy criterion contributes nothing, anything else goes through the
condition helper. -/
def field_conditions (col : String) : Option FilterValue → List SqlCond
  | none => []
  | some v => if truthy_value v then append_condition col v else []

/-- The start-date bound of fetch_filtered_calls, guarded by truthiness. -/
def date_ge_condition : Option String → List SqlCond
  | none => []
  | some d => if d = "" then [] else [.dateGe d]

/-- The end-date bound of fetch_filtered_calls, guarded by truthiness. -/
def date_le_condition : Option String → List SqlCond
  | none => []
  | some d => if d = "" then [] else [.dateLe d]

/-- All conditions fetch_filtered_calls builds, in source order: the two date
bounds, then the filter-column map in insertion order. -/
def build_conditions (f : FilterSpec) : List SqlCond :=
  date_ge_condition f.start_date ++ date_le_condition f.end_date ++
  field_conditions "state" f.state ++ field_conditions "model" f.model ++
  field_conditions "forward_employee_name" f.assigned_to ++
  field_conditions "visited_engineer_name" f.engineer ++
  field_conditions "nature_of_complaint" f.issue_category ++
  field_conditions "instrument_status" f.instrument_status ++
  field_conditions "status" f.status

/-- One bound parameter: a string value or the integer limit. -/
inductive SqlParam
  | str (s : String)
  | int (n : Int)
deriving DecidableEq

/-- A built query: statement text plus ordered bound parameters. -/
structure QueryOut where
  sql : String
  params : List SqlParam
deriving DecidableEq

/-- The statement template shared by both builders: the Python f-string of the
source with its embedded newlines and indentation, stripped at both ends. -/
def sql_template (whereClause limitClause : String) : String :=
  py_strip
    ("\n        SELECT *\n        FROM service_calls\n        " ++ whereClause ++
      "\n        ORDER BY call_entry_datetime DESC\n        " ++ limitClause ++ "\n    ")

/-- Embedding of the query-construction part of fetch_filtered_calls in
query_tools.py: conditions and parameters are accumulated, a non-positive
limit raises, and otherwise statement text and parameters are returned. -/
def fetch_filtered_calls_query (f : FilterSpec) (limit : Option Int) :
    Except String QueryOut :=
  let conds := build_conditions f
  let whereClause :=
    if conds.isEmpty then "" else "WHERE " ++ join_sep " AND " (conds.map SqlCond.render)
  let baseParams := (conds.flatMap SqlCond.values).map SqlParam.str
  match limit with
  | some l =>
      if l ≤ 0 then .error "limit must be positive"
      else .ok ⟨sql_template whereClause " LIMIT ?", baseParams ++ [SqlParam.int l]⟩
  | none => .ok ⟨sql_template whereClause "", baseParams⟩

/-- The filter dictionary accepted by build_service_calls_query in
query_builder.py; dates are already coerced to strings. -/
structure BuilderSpec where
  state : Option String := none
  model : Option String := none
  engineer : Option String := none
  status : Option String := none
  instrument_status : Option String := none
  start_date : Option String := none
  end_date : Option String := none
deriving DecidableEq

/-- One iteration of the filter loop of build_service_calls_query: only a
missing criterion is skipped there (the none test of the source). -/
def builder_field (col : String) : Option String → List SqlCond
  | none => []
  | some v => [.eqCol col v]

/-- All conditions build_service_calls_query builds, in source order: the
filter-column map of query_builder.py in insertion order, then the two date
bounds, guarded by truthiness. -/
def builder_conditions (bf : BuilderSpec) : List SqlCond :=
  builder_field "state" bf.state ++ builder_field "model" bf.model ++
  builder_field "visited_engineer_name" bf.engineer ++
  builder_field "status" bf.status ++
  builder_field "instrument_status" bf.instrument_status ++
  date_ge_condition bf.start_date ++ date_le_condition bf.end_date

/-- Embedding of build_service_calls_query in query_builder.py. -/
def build_service_calls_query (bf : BuilderSpec) (limit : Option Int) :
    Except String QueryOut :=
  let conds := builder_conditions bf
  let whereClause :=
    if conds.isEmpty then "" else " WHERE " ++ join_sep " AND " (conds.map SqlCond.render)
  let baseParams := (conds.flatMap SqlCond.values).map SqlParam.str
  match limit with
  | some l =>
      if l ≤ 0 then .error "limit must be positive"
      else .ok ⟨sql_template whereClause " LIMIT ?", baseParams ++ [SqlParam.int l]⟩
  | none => .ok ⟨sql_template whereClause "", baseParams⟩

/-- The statement text of a built query, when the build succeeded. -/
def sql_of : Except String QueryOut → Option String
  | .ok q => some q.sql
  | .error _ => none

/-- One stored row, restricted to the columns the filter conditions touch;
SQL NULL is embedded as none. -/
structure SqlRow where
  state : Option String := none
  model : Option String := none
  forward_employee_name : Option String := none
  visited_engineer_name : Option String := none
  nature_of_complaint : Option String := none
  instrument_status : Option String := none
  status : Option String := none
  call_entry_datetime : Option String := none
deriving DecidableEq

/-- Looks a column of a row up by its SQL name. -/
def column_value (r : SqlRow) (col : String) : Option String :=
  if col = "state" then r.state
  else if col = "model" then r.model
  else if col = "forward_employee_name" then r.forward_employee_name
  else if col = "visited_engineer_name" then r.visited_engineer_name
  else if col = "nature_of_complaint" then r.nature_of_complaint
  else if col = "instrument_status" then r.instrument_status
  else if col = "status" then r.status
  else none

/-- Models the SQLite date function on ISO-8601 timestamp strings: the first
ten characters form the calendar date. -/
def sqlite_date (ts : String) : String := ⟨ts.data.take 10⟩

/-- Models the SQL truth value of one generated condition against a row,
with SQL three-valued logic collapsed to Bool: a comparison against NULL is
not satisfied. -/
def cond_holds (r : SqlRow) : SqlCond → Bool
  | .dateGe d =>
      match r.call_entry_datetime with
      | some ts => decide (d ≤ sqlite_date ts)
      | none => false
  | .dateLe d =>
      match r.call_entry_datetime with
      | some ts => decide (sqlite_date ts ≤ d)
      | none => false
  | .eqCol col v => column_value r col == some v
  | .inCol col vs =>
      match column_value r col with
      | some x => vs.contains x
      | none => false

/-- Models the WHERE clause joined with AND: a row is returned exactly when
every generated condition holds of it. -/
def row_matches (conds : List SqlCond) (r : SqlRow) : Bool := conds.all (cond_holds r)

/-- One criterion as the claim words it, against a row: an absent or falsy
criterion is no constraint; a scalar constrains the column to equality; a
collection, once cleaned, constrains the column to membership, and an empty
cleaned collection is no constraint at all. -/
def spec_field_ok (r : SqlRow) (col : String) : Option FilterValue → Bool
  | none => true
  | some (.scalar s) => if s = "" then true else column_value r col == some s
  | some (.multi vs) =>
      let cl := clean_values vs
      if cl.isEmpty then true
      else
        match column_value r col with
        | some x => cl.contains x
        | none => false

/-- The date bounds as the claim words them: inclusive bounds on the calendar
date of the entry timestamp, absent or blank bounds being no constraint. -/
def spec_date_ok (r : SqlRow) (f : FilterSpec) : Bool :=
  (match f.start_date with
   | none => true
   | some d =>
       if d = "" then true
       else
         match r.call_entry_datetime with
         | some ts => decide (d ≤ sqlite_date ts)
         | none => false) &&
  (match f.end_date with
   | none => true
   | some d =>
       if d = "" then true
       else
         match r.call_entry_datetime with
         | some ts => decide (sqlite_date ts ≤ d)
         | none => false)

/-- A whole filter specification as the claim words it: the conjunction of
all the per-criterion constraints. -/
def spec_matches (f : FilterSpec) (r : SqlRow) : Bool :=
  spec_date_ok r f &&
  spec_field_ok r "state" f.state && spec_field_ok r "model" f.model &&
  spec_field_ok r "forward_employee_name" f.assigned_to &&
  spec_field_ok r "visited_engineer_name" f.engineer &&
  spec_field_ok r "nature_of_complaint" f.issue_category &&
  spec_field_ok r "instrument_status" f.instrument_status &&
  spec_field_ok r "status" f.status

/-- The seven filterable keys of fetch_filtered_calls. -/
inductive FieldKey
  | state
  | model
  | assigned_to
  | engineer
  | issue_category
  | instrument_status
  | status
deriving DecidableEq

/-- Replaces one criterion of a filter specification. -/
def FilterSpec.setF (f : FilterSpec) : FieldKey → Option FilterValue → FilterSpec
  | .state, v => { f with state := v }
  | .model, v => { f with model := v }
  | .assigned_to, v => { f with assigned_to := v }
  | .engineer, v => { f with engineer := v }
  | .issue_category, v => { f with issue_category := v }
  | .instrument_status, v => { f with instrument_status := v }
  | .status, v => { f with status := v }

/-- The window test with the division cleared: the timestamp difference is at
most 2592000 seconds.  Provably equal to the rational form. -/
def group_diff_count_int : List Occ → ℕ
  | a :: b :: rest =>
      (if b.time - a.time ≤ 2592000 then 1 else 0) + group_diff_count_int (b :: rest)
  | _ => 0

/-- The repeat counter with the integer window test, used to evaluate the
counter on concrete inputs. -/
def repeated_issue_count_int (df : List CallRecord) : ℕ :=
  ((occ_keys (List.insertionSort OccSortLe (eligible_occurrences df))).map
    (fun k =>
      group_diff_count_int
        ((List.insertionSort OccSortLe (eligible_occurrences df)).filter
          (fun o => decide (o.key = k))))).sum

/-- A limit argument that does not raise: absent, or strictly positive. -/
def limit_ok : Option Int → Prop
  | some n => 0 < n
  | none => True

instance : ∀ l, Decidable (limit_ok l) := fun l => by
  cases l <;> simp [limit_ok] <;> infer_instance

/-- The statement text determined by the condition shapes and the presence of
a limit alone, in the fetch_filtered_calls layout. -/
def shape_sql (shapes : List CondShape) (hasLimit : Bool) : String :=
  sql_template
    (if shapes.isEmpty then "" else "WHERE " ++ join_sep " AND " (shapes.map CondShape.render))
    (if hasLimit then " LIMIT ?" else "")

/-- The statement text determined by the condition shapes and the presence of
a limit alone, in the build_service_calls_query layout. -/
def builder_shape_sql (shapes : List CondShape) (hasLimit : Bool) : String :=
  sql_template
    (if shapes.isEmpty then "" else " WHERE " ++ join_sep " AND " (shapes.map CondShape.render))
    (if hasLimit then " LIMIT ?" else "")

/-- The shape of every condition fetch_filtered_calls builds. -/
def fetch_shape (f : FilterSpec) : List CondShape := (build_conditions f).map SqlCond.shape

/-- The shape of every condition build_service_calls_query builds. -/
def builder_shape (bf : BuilderSpec) : List CondShape :=
  (builder_conditions bf).map SqlCond.shape

instance : IsTrans Occ OccTimeLe where
  trans a b c hab hbc := le_trans hab hbc

instance : IsTotal Occ OccTimeLe where
  total a b := le_total a.time b.time

instance : IsTrans Occ OccSortLe where
  trans a b c hab hbc := by
    unfold OccSortLe at *
    rcases hab with h1 | ⟨e1, h1⟩ <;> rcases hbc with h2 | ⟨e2, h2⟩
    · exact Or.inl (lt_trans h1 h2)
    · exact Or.inl (by rw [← e2]; exact h1)
    · exact Or.inl (by rw [e1]; exact h2)
    · refine Or.inr ⟨e1.trans e2, ?_⟩
      rcases h1 with h1 | ⟨f1, h1⟩ <;> rcases h2 with h2 | ⟨f2, h2⟩
      · exact Or.inl (lt_trans h1 h2)
      · exact Or.inl (by rw [← f2]; exact h1)
      · exact Or.inl (by rw [f1]; exact h2)
      · exact Or.inr ⟨f1.trans f2, le_trans h1 h2⟩

instance : IsTotal Occ OccSortLe where
  total a b := by
    unfold OccSortLe
    rcases lt_trichotomy a.name b.name with h | h | h
    · exact Or.inl (Or.inl h)
    · rcases lt_trichotomy a.complaint b.complaint with h2 | h2 | h2
      · exact Or.inl (Or.inr ⟨h, Or.inl h2⟩)
      · rcases le_total a.time b.time with h3 | h3
        · exact Or.inl (Or.inr ⟨h, Or.inr ⟨h2, h3⟩⟩)
        · exact Or.inr (Or.inr ⟨h.symm, Or.inr ⟨h2.symm, h3⟩⟩)
      · exact Or.inr (Or.inr ⟨h.symm, Or.inl h2⟩)
    · exact Or.inr (Or.inl h)

instance : IsAntisymm Occ OccSortLe where
  antisymm a b hab hba := by
    obtain ⟨an, ac, atime⟩ := a
    obtain ⟨bn, bc, btime⟩ := b
    unfold OccSortLe at hab hba
    simp only at hab hba
    rcases hab with h1 | ⟨e1, h1⟩
    · rcases hba with h2 | ⟨e2, h2⟩
      · exact absurd (lt_trans h1 h2) (lt_irrefl _)
      · exact absurd h1 (by rw [e2]; exact lt_irrefl _)
    · rcases hba with h2 | ⟨e2, h2⟩
      · exact absurd h2 (by rw [e1]; exact lt_irrefl _)
      · cases e1
        rcases h1 with h1 | ⟨f1, h1⟩
        · rcases h2 with h2 | ⟨f2, h2⟩
          · exact absurd (lt_trans h1 h2) (lt_irrefl _)
          · exact absurd h1 (by rw [f2]; exact lt_irrefl _)
        · rcases h2 with h2 | ⟨f2, h2⟩
          · exact absurd h2 (by rw [f1]; exact lt_irrefl _)
          · cases f1
            cases le_antisymm h1 h2
            rfl

/-- A record whose solved timestamp lies two days before its entry
timestamp. -/
def c3_record : CallRecord :=
  { call_entry_datetime := some 172800, call_solved_datetime := some 0 }

/-- A filter specification carrying two state values, used to witness the
shape theorems. -/
def fetch_w1 : FilterSpec := { state := some (.multi [some "TX", some "NY"]) }

/-- A second filter specification with different values of the same shape. -/
def fetch_w2 : FilterSpec := { state := some (.multi [some "CA", some "WA"]) }

/-- A builder specification carrying one model value. -/
def builder_w1 : BuilderSpec := { model := some "X100" }

/-- A second builder specification with a different value of the same
shape. -/
def builder_w2 : BuilderSpec := { model := some "Z900" }

theorem status_matches_eq_spec_closed (r : CallRecord) :
    status_matches closed_status_targets r = spec_closed r := by
  have hmap : closed_status_targets.map py_lower = closed_status_targets := by decide
  have h1 : closed_status_targets.contains (py_lower "") = false := by decide
  have h2 : (closed_status_targets.any fun t => py_startswith (py_lower "") t) = false := by
    decide
  cases hs : r.status <;> cases hc : r.call_status <;>
    simp only [status_matches, spec_closed, hs, hc, hmap, Option.getD_some, Option.getD_none,
      h1, h2, Bool.false_or, Bool.or_false]

theorem status_matches_eq_spec_pending (r : CallRecord) :
    status_matches pending_status_targets r = spec_pending r := by
  have hmap : pending_status_targets.map py_lower = pending_status_targets := by decide
  have h1 : pending_status_targets.contains (py_lower "") = false := by decide
  have h2 : (pending_status_targets.any fun t => py_startswith (py_lower "") t) = false := by
    decide
  cases hs : r.status <;> cases hc : r.call_status <;>
    simp only [status_matches, spec_pending, hs, hc, hmap, Option.getD_some, Option.getD_none,
      h1, h2, Bool.false_or, Bool.or_false]

/-- C1 (amended): for every input collection, closed_calls equals the count
of records whose status, case-insensitively, is an exact member of
the set containing solved, closed, completed and resolved, or whose
call_status, case-insensitively, starts with one of those four words (not
only with solved); the three example records of the claim all contribute. -/
theorem c1_closed_calls_amended :
    (∀ df : List CallRecord, (compute_kpis df).closed_calls = df.countP spec_closed) ∧
      (compute_kpis [{ status := some "Solved" }]).closed_calls = 1 ∧
      (compute_kpis [{ call_status := some "Solved - OK" }]).closed_calls = 1 ∧
      (compute_kpis [{ status := some "solved" }]).closed_calls = 1 := by
  refine ⟨?_, by decide, by decide, by decide⟩
  intro df
  have hfun : status_matches closed_status_targets = spec_closed :=
    funext status_matches_eq_spec_closed
  cases df with
  | nil => rfl
  | cons a t => simp only [compute_kpis, List.length_cons, Nat.succ_ne_zero, if_false, hfun]

/-- C1 (counterexample): a record whose call_status starts with the word
closed, with no status at all, is counted by the code but not by the claim
formula, which admits only the solved word as a call_status head. -/
theorem c1_closed_calls_counterexample :
    (compute_kpis [{ call_status := some "Closed - follow up" }]).closed_calls = 1 ∧
      claim_closed_count [{ call_status := some "Closed - follow up" }] = 0 := by
  constructor <;> decide

/-- C2 (amended): for every input collection, pending_calls equals the count
of records whose status, case-insensitively, is an exact member of the
pending set, or whose call_status, case-insensitively, starts with one of
the pending words; call_status does take part in the classification. -/
theorem c2_pending_calls_amended :
    ∀ df : List CallRecord, (compute_kpis df).pending_calls = df.countP spec_pending := by
  intro df
  have hfun : status_matches pending_status_targets = spec_pending :=
    funext status_matches_eq_spec_pending
  cases df with
  | nil => rfl
  | cons a t => simp only [compute_kpis, List.length_cons, Nat.succ_ne_zero, if_false, hfun]

/-- C2 (counterexample): a record with no status whose call_status starts
with the word open is counted as pending by the code, while the claim, for
which call_status plays no role, counts nothing. -/
theorem c2_pending_calls_counterexample :
    (compute_kpis [{ call_status := some "Open - awaiting parts" }]).pending_calls = 1 ∧
      claim_pending_count [{ call_status := some "Open - awaiting parts" }] = 0 := by
  constructor <;> decide

/-- C9: on both query paths a limit of zero or less is rejected with the
limit-must-be-positive error before any statement is produced, never
coerced. -/
theorem c9_nonpositive_limit_rejected :
    ∀ (f : FilterSpec) (bf : BuilderSpec) (l : Int), l ≤ 0 →
      fetch_filtered_calls_query f (some l) = .error "limit must be positive" ∧
      build_service_calls_query bf (some l) = .error "limit must be positive" := by
  intro f bf l hl
  constructor <;> simp [fetch_filtered_calls_query, build_service_calls_query, hl]

/-- C9 (witness): the rejection at limit zero on both paths. -/
theorem c9_nonpositive_limit_rejected_witness :
    (0 : Int) ≤ 0 ∧
      fetch_filtered_calls_query {} (some 0) = .error "limit must be positive" ∧
      build_service_calls_query {} (some 0) = .error "limit must be positive" :=
  ⟨le_refl 0,
    (c9_nonpositive_limit_rejected {} {} 0 (le_refl 0)).1,
    (c9_nonpositive_limit_rejected {} {} 0 (le_refl 0)).2⟩

/-- C10: a zero limit is falsy in the truncation guard of
prepare_distribution, so the full distribution is returned, exactly as with
no limit at all. -/
theorem c10_zero_limit_full_distribution :
    ∀ (df : List CallRecord) (column : CallRecord → Option String),
      prepare_distribution df column (some 0) = prepare_distribution df column none := by
  intro df column
  simp [prepare_distribution]

theorem resolution_days_length (df : List CallRecord) :
    (resolution_days_list df).length = df.countP (fun r => (resolution_of r).isSome) := by
  unfold resolution_days_list
  induction df with
  | nil => rfl
  | cons a t ih =>
      cases h : resolution_of a <;>
        simp [List.filterMap_cons, h, List.countP_cons, ih]

theorem resolution_days_countP (df : List CallRecord) :
    (resolution_days_list df).countP (fun q => decide (q ≤ 2)) =
      df.countP (fun r =>
        match resolution_of r with
        | some q => decide (q ≤ 2)
        | none => false) := by
  unfold resolution_days_list
  induction df with
  | nil => rfl
  | cons a t ih =>
      cases h : resolution_of a <;>
        simp [List.filterMap_cons, h, List.countP_cons, ih]

/-- C5: for every input collection, sla_compliance is the percentage, rounded
to one decimal place, of the records having both timestamps whose resolution
is at most two days inclusive, zero when no such record exists; and the
two-day boundary example of the claim is compliant. -/
theorem c5_sla_compliance :
    (∀ df : List CallRecord, (compute_kpis df).sla_compliance = spec_sla df) ∧
      (compute_kpis
        [{ call_entry_datetime := some 0, call_solved_datetime := some 172800 }]).sla_compliance
        = 100 := by
  constructor
  · intro df
    cases df with
    | nil => rfl
    | cons a t =>
        simp only [compute_kpis, List.length_cons, Nat.succ_ne_zero, if_false, spec_sla,
          resolution_days_length, resolution_days_countP]
  · have hres : resolution_days_list
        [{ call_entry_datetime := some 0, call_solved_datetime := some 172800 }] = [2] := by
      norm_num [resolution_days_list, List.filterMap_cons, resolution_of]
    simp only [compute_kpis, List.length_cons, Nat.succ_ne_zero, if_false, hres]
    norm_num [python_round, round_half_even, List.countP_cons, Int.fract_intCast,
      Int.fract_natCast, Int.fract_ofNat]

/-- C3 (amended): a record whose solved timestamp precedes its entry
timestamp is included, not excluded: its negative duration enters the
resolution-day samples, it counts as SLA compliant there since a negative
duration is at most two days, it still counts in total_calls, and nothing
fails. -/
theorem c3_negative_resolution_included :
    ∀ (df : List CallRecord) (r : CallRecord) (entry solved : Int),
      r ∈ df → r.call_entry_datetime = some entry → r.call_solved_datetime = some solved →
      solved < entry →
      (((solved - entry : ℤ) : ℚ) / 86400) ∈ resolution_days_list df ∧
        (((solved - entry : ℤ) : ℚ) / 86400) ≤ 2 ∧
        (compute_kpis df).total_calls = df.length := by
  intro df r entry solved hmem he hs hlt
  refine ⟨?_, ?_, ?_⟩
  · exact List.mem_filterMap.mpr ⟨r, hmem, by simp [resolution_of, he, hs]⟩
  · have h0 : ((solved - entry : ℤ) : ℚ) ≤ 0 := by
      have hz : (solved - entry : ℤ) ≤ 0 := by omega
      exact_mod_cast hz
    have hd : ((solved - entry : ℤ) : ℚ) / 86400 ≤ 0 :=
      div_nonpos_iff.mpr (Or.inr ⟨h0, by norm_num⟩)
    linarith
  · cases df with
    | nil => cases hmem
    | cons a t => simp [compute_kpis]

/-- C3 (witness): the amended statement at a one-record collection with a
reversed pair of timestamps. -/
theorem c3_negative_resolution_included_witness :
    c3_record ∈ [c3_record] ∧ (0 : Int) < 172800 ∧
      ((((0 - 172800 : ℤ) : ℚ) / 86400) ∈ resolution_days_list [c3_record] ∧
        (((0 - 172800 : ℤ) : ℚ) / 86400) ≤ 2 ∧
        (compute_kpis [c3_record]).total_calls = [c3_record].length) :=
  ⟨List.mem_cons_self _ _, by decide,
    c3_negative_resolution_included [c3_record] c3_record 172800 0
      (List.mem_cons_self _ _) rfl rfl (by decide)⟩

/-- C3 (counterexample): on the one-record collection with a reversed pair
of timestamps the code reports full SLA compliance and a negative average,
so the record was not excluded from either aggregate as the claim states. -/
theorem c3_negative_resolution_counterexample :
    resolution_days_list [c3_record] = [-2] ∧
      (compute_kpis [c3_record]).sla_compliance = 100 ∧
      (compute_kpis [c3_record]).avg_resolution_days = -2 := by
  have hres : resolution_days_list [c3_record] = [-2] := by
    norm_num [resolution_days_list, List.filterMap_cons, resolution_of, c3_record]
  refine ⟨hres, ?_, ?_⟩ <;>
    simp only [compute_kpis, List.length_cons, Nat.succ_ne_zero, if_false, hres] <;>
    norm_num [python_round, round_half_even, List.countP_cons, Int.fract_intCast,
      Int.fract_natCast, Int.fract_ofNat, Int.fract]

theorem within_window_eq_int (a b : Occ) :
    within_window a b = decide (b.time - a.time ≤ 2592000) := by
  unfold within_window
  rw [decide_eq_decide]
  rw [div_le_iff₀ (by norm_num : (0 : ℚ) < 86400)]
  rw [show (30 : ℚ) * 86400 = ((2592000 : ℤ) : ℚ) by norm_num]
  exact Int.cast_le

theorem group_diff_count_eq_int (l : List Occ) :
    group_diff_count l = group_diff_count_int l := by
  induction l with
  | nil => rfl
  | cons a t ih =>
      cases t with
      | nil => rfl
      | cons b rest =>
          simp only [group_diff_count, group_diff_count_int, within_window_eq_int,
            decide_eq_true_eq] at ih ⊢
          rw [ih]

theorem repeated_issue_count_eq_int (df : List CallRecord) :
    repeated_issue_count df = repeated_issue_count_int df := by
  unfold repeated_issue_count repeated_issue_count_int
  simp only [group_diff_count_eq_int]

theorem filter_insertionSort_key (l : List Occ) (k : String × String) :
    (List.insertionSort OccSortLe l).filter (fun o => decide (o.key = k)) =
      List.insertionSort OccTimeLe (l.filter (fun o => decide (o.key = k))) := by
  have hpermL : List.Perm
      ((List.insertionSort OccSortLe l).filter (fun o => decide (o.key = k)))
      (l.filter (fun o => decide (o.key = k))) :=
    (List.perm_insertionSort OccSortLe l).filter _
  have hpermR : List.Perm
      (List.insertionSort OccTimeLe (l.filter (fun o => decide (o.key = k))))
      (l.filter (fun o => decide (o.key = k))) :=
    List.perm_insertionSort OccTimeLe _
  have hsortL : List.Sorted OccSortLe
      ((List.insertionSort OccSortLe l).filter (fun o => decide (o.key = k))) :=
    List.Pairwise.filter _ (List.sorted_insertionSort OccSortLe l)
  have hsortR : List.Sorted OccSortLe
      (List.insertionSort OccTimeLe (l.filter (fun o => decide (o.key = k)))) := by
    have hs := List.sorted_insertionSort OccTimeLe (l.filter (fun o => decide (o.key = k)))
    refine hs.imp_of_mem ?_
    intro a b ha hb hab
    have hka : a.key = k := by
      have hmem := (List.perm_insertionSort OccTimeLe _).mem_iff.mp ha
      exact of_decide_eq_true (List.mem_filter.mp hmem).2
    have hkb : b.key = k := by
      have hmem := (List.perm_insertionSort OccTimeLe _).mem_iff.mp hb
      exact of_decide_eq_true (List.mem_filter.mp hmem).2
    have hk := hka.trans hkb.symm
    have hname : a.name = b.name := congrArg Prod.fst hk
    have hcompl : a.complaint = b.complaint := congrArg Prod.snd hk
    exact Or.inr ⟨hname, Or.inr ⟨hcompl, hab⟩⟩
  exact List.eq_of_perm_of_sorted (hpermL.trans hpermR.symm) hsortL hsortR

/-- C4: for every input collection, repeated_issues equals, summed over the
customer and complaint pairs, the count of eligible occurrences that are not
the chronologically first of their pair and lie within 30 days (inclusive)
of the immediately preceding occurrence of the same pair; on the example of
the claim, entries at day 0, day 20 and day 55 yield exactly one repeat,
since the day-55 entry is 35 days after its immediate predecessor. -/
theorem c4_repeated_issues :
    (∀ df : List CallRecord, repeated_issue_count df = spec_repeated_issues df) ∧
      repeated_issue_count
        [{ customer_name := some "A", customer_complaint := some "leak",
            call_entry_datetime := some 0 },
          { customer_name := some "A", customer_complaint := some "leak",
            call_entry_datetime := some 1728000 },
          { customer_name := some "A", customer_complaint := some "leak",
            call_entry_datetime := some 4752000 }] = 1 := by
  constructor
  · intro df
    unfold repeated_issue_count spec_repeated_issues
    have hperm : List.Perm (List.insertionSort OccSortLe (eligible_occurrences df))
        (eligible_occurrences df) := List.perm_insertionSort _ _
    have hkeys : List.Perm (occ_keys (List.insertionSort OccSortLe (eligible_occurrences df)))
        (occ_keys (eligible_occurrences df)) := by
      unfold occ_keys
      exact (hperm.map Occ.key).dedup
    simp only [filter_insertionSort_key]
    exact (hkeys.map _).sum_eq
  · rw [repeated_issue_count_eq_int]
    decide

theorem render_eq_shape (c : SqlCond) : c.render = c.shape.render := by
  cases c <;> rfl

theorem map_isEmpty {α β : Type} (f : α → β) (l : List α) :
    (l.map f).isEmpty = l.isEmpty := by
  cases l <;> rfl

theorem fetch_query_characterization (f : FilterSpec) :
    fetch_filtered_calls_query f none =
      .ok ⟨shape_sql (fetch_shape f) false,
        ((build_conditions f).flatMap SqlCond.values).map SqlParam.str⟩ ∧
    ∀ n : Int, 0 < n →
      fetch_filtered_calls_query f (some n) =
        .ok ⟨shape_sql (fetch_shape f) true,
          ((build_conditions f).flatMap SqlCond.values).map SqlParam.str ++
            [SqlParam.int n]⟩ := by
  have hrender : (build_conditions f).map SqlCond.render =
      (fetch_shape f).map CondShape.render := by
    unfold fetch_shape
    rw [List.map_map]
    exact List.map_congr_left fun c _ => render_eq_shape c
  have hempty : (fetch_shape f).isEmpty = (build_conditions f).isEmpty := map_isEmpty _ _
  constructor
  · unfold fetch_filtered_calls_query shape_sql
    simp only [hempty, hrender]
    rfl
  · intro n hn
    have hle : ¬ (n ≤ 0) := by omega
    unfold fetch_filtered_calls_query shape_sql
    simp only [hempty, hrender, hle, ite_false, if_false]
    rfl

theorem builder_query_characterization (bf : BuilderSpec) :
    build_service_calls_query bf none =
      .ok ⟨builder_shape_sql (builder_shape bf) false,
        ((builder_conditions bf).flatMap SqlCond.values).map SqlParam.str⟩ ∧
    ∀ n : Int, 0 < n →
      build_service_calls_query bf (some n) =
        .ok ⟨builder_shape_sql (builder_shape bf) true,
          ((builder_conditions bf).flatMap SqlCond.values).map SqlParam.str ++
            [SqlParam.int n]⟩ := by
  have hrender : (builder_conditions bf).map SqlCond.render =
      (builder_shape bf).map CondShape.render := by
    unfold builder_shape
    rw [List.map_map]
    exact List.map_congr_left fun c _ => render_eq_shape c
  have hempty : (builder_shape bf).isEmpty = (builder_conditions bf).isEmpty := map_isEmpty _ _
  constructor
  · unfold build_service_calls_query builder_shape_sql
    simp only [hempty, hrender]
    rfl
  · intro n hn
    have hle : ¬ (n ≤ 0) := by omega
    unfold build_service_calls_query builder_shape_sql
    simp only [hempty, hrender, hle, ite_false, if_false]
    rfl

/-- C6: on both builders the statement text is a function of the shape alone,
namely of which criteria are present and how many set members each carries,
together with the presence of a limit; every user-supplied value travels only
in the bound-parameter list, which holds exactly the condition values
followed by the limit. -/
theorem c6_sql_text_shape_only :
    (∀ (f1 f2 : FilterSpec) (l1 l2 : Option Int),
        fetch_shape f1 = fetch_shape f2 → l1.isSome = l2.isSome →
        limit_ok l1 → limit_ok l2 →
        sql_of (fetch_filtered_calls_query f1 l1) =
          sql_of (fetch_filtered_calls_query f2 l2)) ∧
      (∀ (b1 b2 : BuilderSpec) (l1 l2 : Option Int),
        builder_shape b1 = builder_shape b2 → l1.isSome = l2.isSome →
        limit_ok l1 → limit_ok l2 →
        sql_of (build_service_calls_query b1 l1) =
          sql_of (build_service_calls_query b2 l2)) ∧
      (∀ (f : FilterSpec) (n : Int), 0 < n →
        fetch_filtered_calls_query f (some n) =
          .ok ⟨shape_sql (fetch_shape f) true,
            ((build_conditions f).flatMap SqlCond.values).map SqlParam.str ++
              [SqlParam.int n]⟩) := by
  refine ⟨?_, ?_, fun f n hn => (fetch_query_characterization f).2 n hn⟩
  · intro f1 f2 l1 l2 hshape hsome h1 h2
    cases l1 with
    | none =>
        cases l2 with
        | none =>
            rw [(fetch_query_characterization f1).1, (fetch_query_characterization f2).1,
              sql_of, sql_of, hshape]
        | some m => simp at hsome
    | some n =>
        cases l2 with
        | none => simp at hsome
        | some m =>
            rw [(fetch_query_characterization f1).2 n h1,
              (fetch_query_characterization f2).2 m h2, sql_of, sql_of, hshape]
  · intro b1 b2 l1 l2 hshape hsome h1 h2
    cases l1 with
    | none =>
        cases l2 with
        | none =>
            rw [(builder_query_characterization b1).1, (builder_query_characterization b2).1,
              sql_of, sql_of, hshape]
        | some m => simp at hsome
    | some n =>
        cases l2 with
        | none => simp at hsome
        | some m =>
            rw [(builder_query_characterization b1).2 n h1,
              (builder_query_characterization b2).2 m h2, sql_of, sql_of, hshape]

/-- C6 (witness): two filter specifications differing only in their values,
and two builder specifications likewise, produce identical statement text. -/
theorem c6_sql_text_shape_only_witness :
    fetch_shape fetch_w1 = fetch_shape fetch_w2 ∧
      (some 5 : Option Int).isSome = (some 7 : Option Int).isSome ∧
      limit_ok (some 5) ∧ limit_ok (some 7) ∧
      builder_shape builder_w1 = builder_shape builder_w2 ∧
      sql_of (fetch_filtered_calls_query fetch_w1 (some 5)) =
        sql_of (fetch_filtered_calls_query fetch_w2 (some 7)) ∧
      sql_of (build_service_calls_query builder_w1 (some 5)) =
        sql_of (build_service_calls_query builder_w2 (some 7)) ∧
      fetch_filtered_calls_query fetch_w1 (some 5) =
        .ok ⟨shape_sql (fetch_shape fetch_w1) true,
          ((build_conditions fetch_w1).flatMap SqlCond.values).map SqlParam.str ++
            [SqlParam.int 5]⟩ :=
  ⟨by decide, rfl, by decide, by decide, by decide,
    c6_sql_text_shape_only.1 fetch_w1 fetch_w2 (some 5) (some 7) (by decide) rfl
      (by decide) (by decide),
    c6_sql_text_shape_only.2.1 builder_w1 builder_w2 (some 5) (some 7) (by decide) rfl
      (by decide) (by decide),
    c6_sql_text_shape_only.2.2 fetch_w1 5 (by decide)⟩

theorem append_condition_multi_empty (col : String) (vs : List (Option String))
    (h : clean_values vs = []) : append_condition col (.multi vs) = [] := by
  simp [append_condition, h]

theorem field_conditions_multi_empty (col : String) (vs : List (Option String))
    (h : clean_values vs = []) : field_conditions col (some (.multi vs)) = [] := by
  cases vs with
  | nil => rfl
  | cons a t =>
      simp only [field_conditions, truthy_value, List.isEmpty_cons, Bool.not_false, if_true]
      simp [append_condition, h]

theorem row_matches_append (c1 c2 : List SqlCond) (r : SqlRow) :
    row_matches (c1 ++ c2) r = (row_matches c1 r && row_matches c2 r) := by
  unfold row_matches
  exact List.all_append

theorem row_matches_field (r : SqlRow) (col : String) (ov : Option FilterValue) :
    row_matches (field_conditions col ov) r = spec_field_ok r col ov := by
  cases ov with
  | none => rfl
  | some v =>
      cases v with
      | scalar s =>
          by_cases hs : s = "" <;>
            simp [field_conditions, truthy_value, append_condition, row_matches,
              cond_holds, spec_field_ok, hs]
      | multi vs =>
          cases vs with
          | nil => simp [field_conditions, truthy_value, spec_field_ok, clean_values,
              row_matches]
          | cons a t =>
              by_cases he : (clean_values (a :: t)).isEmpty <;>
                simp only [field_conditions, truthy_value, List.isEmpty_cons, Bool.not_false,
                  if_true, append_condition, spec_field_ok, he, if_false, ite_true,
                  ite_false] <;>
                [skip;
                  (cases hc : column_value r col <;>
                    simp [row_matches, cond_holds, hc])]
              rfl

theorem row_matches_date_ge (r : SqlRow) (o : Option String) :
    row_matches (date_ge_condition o) r =
      (match o with
       | none => true
       | some d =>
           if d = "" then true
           else
             match r.call_entry_datetime with
             | some ts => decide (d ≤ sqlite_date ts)
             | none => false) := by
  cases o with
  | none => rfl
  | some d =>
      by_cases hd : d = "" <;>
        cases hts : r.call_entry_datetime <;>
        simp [date_ge_condition, row_matches, cond_holds, hd, hts]

theorem row_matches_date_le (r : SqlRow) (o : Option String) :
    row_matches (date_le_condition o) r =
      (match o with
       | none => true
       | some d =>
           if d = "" then true
           else
             match r.call_entry_datetime with
             | some ts => decide (sqlite_date ts ≤ d)
             | none => false) := by
  cases o with
  | none => rfl
  | some d =>
      by_cases hd : d = "" <;>
        cases hts : r.call_entry_datetime <;>
        simp [date_le_condition, row_matches, cond_holds, hd, hts]

/-- C8: criteria are conjunctive across fields with membership semantics
within a field, and a criterion whose set cleans to empty is no constraint
at all: the whole built query is the one of the specification with that
criterion omitted, so the same rows are returned, never an empty result. -/
theorem c8_conjunctive_membership_empty_set :
    (∀ (f : FilterSpec) (k : FieldKey) (vs : List (Option String)) (l : Option Int),
        clean_values vs = [] →
        fetch_filtered_calls_query (f.setF k (some (.multi vs))) l =
          fetch_filtered_calls_query (f.setF k none) l) ∧
      (∀ (f : FilterSpec) (r : SqlRow),
        row_matches (build_conditions f) r = spec_matches f r) := by
  constructor
  · intro f k vs l h
    have hc : build_conditions (f.setF k (some (.multi vs))) =
        build_conditions (f.setF k none) := by
      cases k <;>
        simp [FilterSpec.setF, build_conditions, field_conditions_multi_empty _ _ h,
          field_conditions, append_condition_multi_empty _ _ h]
    unfold fetch_filtered_calls_query
    rw [hc]
  · intro f r
    unfold build_conditions spec_matches spec_date_ok
    simp only [row_matches_append, row_matches_field, row_matches_date_ge,
      row_matches_date_le, Bool.and_assoc]

/-- C8 (witness): a collection that cleans to empty, on the state criterion,
yields the very same query as the specification without it. -/
theorem c8_conjunctive_membership_empty_set_witness :
    clean_values [some "", none] = [] ∧
      fetch_filtered_calls_query
          (FilterSpec.setF {} .state (some (.multi [some "", none]))) (some 10) =
        fetch_filtered_calls_query (FilterSpec.setF {} .state none) (some 10) :=
  ⟨by decide,
    c8_conjunctive_membership_empty_set.1 {} .state [some "", none] (some 10) (by decide)⟩

theorem cleaned_series_eq (df : List CallRecord) (column : CallRecord → Option String) :
    ((df.filterMap column).map py_strip).filter (fun s => !(s == "")) =
      df.filterMap
        (fun r => (column r).bind
          (fun s => if py_strip s = "" then none else some (py_strip s))) := by
  induction df with
  | nil => rfl
  | cons a t ih =>
      cases h : column a with
      | none => simp [List.filterMap_cons, h, ih]
      | some s =>
          by_cases hs : py_strip s = "" <;>
            simp [List.filterMap_cons, h, hs, ih]

theorem spec_series_count (df : List CallRecord) (column : CallRecord → Option String)
    (v : String) (hv : v ≠ "") :
    (df.filterMap
        (fun r => (column r).bind
          (fun s => if py_strip s = "" then none else some (py_strip s)))).count v =
      df.countP (fun r => (column r).map py_strip == some v) := by
  induction df with
  | nil => rfl
  | cons a t ih =>
      cases h : column a with
      | none => simp [List.filterMap_cons, h, List.countP_cons, ih]
      | some s =>
          by_cases hs : py_strip s = ""
          · simp [List.filterMap_cons, h, hs, List.countP_cons, ih, List.count_cons]
            exact fun hvv => hv hvv.symm
          · simp [List.filterMap_cons, h, hs, List.countP_cons, ih, List.count_cons]

theorem mem_unique_aux (v : String) :
    ∀ (l : List String) (seen : List String), v ∈ unique_aux seen l → v ∈ l := by
  intro l
  induction l with
  | nil => intro seen h; cases h
  | cons a t ih =>
      intro seen h
      by_cases hc : seen.contains a
      · simp only [unique_aux, hc, if_true] at h
        exact List.mem_cons_of_mem _ (ih _ h)
      · simp only [unique_aux, hc, if_false, Bool.false_eq_true] at h
        rcases List.mem_cons.mp h with h | h
        · exact h ▸ List.mem_cons_self _ _
        · exact List.mem_cons_of_mem _ (ih _ h)

theorem spec_series_nonblank (df : List CallRecord) (column : CallRecord → Option String)
    (v : String)
    (hv : v ∈ df.filterMap
      (fun r => (column r).bind
        (fun s => if py_strip s = "" then none else some (py_strip s)))) : v ≠ "" := by
  rcases List.mem_filterMap.mp hv with ⟨r, _, hr⟩
  cases h : column r with
  | none => rw [h] at hr; cases hr
  | some s =>
      rw [h] at hr
      by_cases hs : py_strip s = ""
      · simp [hs] at hr
      · simp only [Option.some_bind, hs, if_false, ite_false, Option.some.injEq] at hr
        exact hr ▸ hs

theorem distribution_data_eq (df : List CallRecord) (column : CallRecord → Option String) :
    value_counts (((df.filterMap column).map py_strip).filter (fun s => !(s == ""))) =
      List.insertionSort CountDescLe
        ((unique_in_order
            (df.filterMap (fun r => (column r).bind
              (fun s => if py_strip s = "" then none else some (py_strip s))))).map
          (fun v => (v, df.countP (fun r => (column r).map py_strip == some v)))) := by
  unfold value_counts
  rw [cleaned_series_eq]
  congr 1
  apply List.map_congr_left
  intro v hv
  unfold unique_in_order at hv
  have hvs := mem_unique_aux v _ [] hv
  have hnb := spec_series_nonblank df column v hvs
  rw [spec_series_count df column v hnb]

/-- C7 (amended): the distribution groups records by non-absent trimmed
value, blank and absent excluded, counts each group, returns groups stably
sorted by descending count with ties left in first-occurrence order rather
than ascending lexical order, optionally truncated to a requested top count;
the example values TX, TX, CA, blank and absent yield TX twice then CA
once. -/
theorem c7_distribution_amended :
    (∀ (df : List CallRecord) (column : CallRecord → Option String),
        prepare_distribution df column none = spec_distribution df column none) ∧
      (∀ (df : List CallRecord) (column : CallRecord → Option String) (n : ℕ), 0 < n →
        prepare_distribution df column (some (n : Int)) = spec_distribution df column (some n)) ∧
      prepare_distribution
          [{ state := some "TX" }, { state := some "TX" }, { state := some "CA" },
            { state := some "" }, { state := none }] (fun r => r.state) none
        = [("TX", 2), ("CA", 1)] := by
  refine ⟨?_, ?_, by decide⟩
  · intro df column
    unfold prepare_distribution spec_distribution
    simp only [distribution_data_eq]
  · intro df column n hn
    have hz : ¬ ((n : Int) = 0) := by omega
    unfold prepare_distribution spec_distribution pandas_head
    simp only [distribution_data_eq, hz, ite_false, if_false,
      (by omega : (0 : Int) ≤ (n : Int)), ite_true, if_true, Int.toNat_natCast]

/-- C7 (counterexample): two singleton groups of equal count: the code
returns them in first-occurrence order, not in the ascending lexical order
the claim prescribes. -/
theorem c7_distribution_counterexample :
    prepare_distribution [{ model := some "b" }, { model := some "a" }]
        (fun r => r.model) none = [("b", 1), ("a", 1)] ∧
      claim_distribution [{ model := some "b" }, { model := some "a" }]
        (fun r => r.model) = [("a", 1), ("b", 1)] := by
  constructor <;> decide

/-- C7 (witness): the amended truncation statement at one element. -/
theorem c7_distribution_amended_witness :
    0 < 1 ∧
      prepare_distribution
          [{ state := some "TX" }, { state := some "TX" }, { state := some "CA" }]
          (fun r => r.state) (some ((1 : ℕ) : Int)) =
        spec_distribution
          [{ state := some "TX" }, { state := some "TX" }, { state := some "CA" }]
          (fun r => r.state) (some 1) :=
  ⟨Nat.one_pos,
    c7_distribution_amended.2.1
      [{ state := some "TX" }, { state := some "TX" }, { state := some "CA" }]
      (fun r => r.state) 1 Nat.one_pos⟩
